import Mathlib

/-!
# Verification of the Dynamic Power Limiter (OpenDTU-OnBattery)

A shallow embedding of `src/PowerLimiter.cpp` (class `PowerLimiterClass`).

Modelling conventions:
* C `float`/`double` values are modelled as exact rationals (`ℚ`).
* C `int32_t` values are modelled as `ℤ`; `uint32_t` millisecond clocks as `ℕ`.
  Unsigned subtraction is modelled by truncated `Nat` subtraction; theorems
  carry `earlier ≤ now` hypotheses where the distinction could matter.
  Where a `uint32_t` sum can realistically wrap (the inverter restart
  deadline), the reduction modulo `2 ^ 32` is explicit.
* The cast `float → int32_t` truncates toward zero (`ratTrunc`); the C
  library `round` rounds half away from zero (`cround`).
* Side effects on the inverter radio are modelled as a list of emitted
  commands (`Cmd`); log output is ignored; `announceStatus` is modelled by
  its effect on the `_lastStatus` member.
-/

set_option autoImplicit false

namespace DPL

/-- The `float → int32_t` conversion: truncation toward zero. -/
def ratTrunc (q : ℚ) : ℤ := if 0 ≤ q then ⌊q⌋ else ⌈q⌉

/-- C library `round`: rounds half away from zero. -/
def cround (q : ℚ) : ℤ := if 0 ≤ q then ⌊q + 1/2⌋ else ⌈q - 1/2⌉

/-- The constant `2 ^ 32`, the modulus of `uint32_t` arithmetic. -/
def U32 : ℕ := 2 ^ 32

/-- Result state of an inverter command (`CMD_PENDING` / `CMD_OK` / `CMD_NOK`). -/
inductive CmdState where
  | pending
  | ok
  | nok
deriving DecidableEq

/-- The DPL status codes (enum `PowerLimiterClass::Status`). -/
inductive Status where
  | initializing
  | disabledByConfig
  | disabledByMqtt
  | waitingForValidTimestamp
  | powerMeterDisabled
  | powerMeterTimeout
  | powerMeterPending
  | inverterInvalid
  | inverterChanged
  | inverterOffline
  | inverterCommandsDisabled
  | inverterLimitPending
  | inverterPowerCmdPending
  | inverterDevInfoPending
  | inverterStatsPending
  | unconditionalSolarPassthrough
  | noVeDirect
  | settling
  | stable
deriving DecidableEq

/-- The DPL operating mode (enum `PowerLimiterClass::Mode`). -/
inductive Mode where
  | normal
  | disabled
  | unconditionalFullSolarPassthrough
deriving DecidableEq

/-- Battery drain strategy. Modelled from the spec: the constants
`EMPTY_WHEN_FULL` and `EMPTY_AT_NIGHT` are declared in a header that is not
among the sources; only which of the two is selected matters. -/
inductive DrainStrategy where
  | emptyWhenFull
  | emptyAtNight
deriving DecidableEq

/-- The configuration fields (`CONFIG_T`) read by the power limiter. -/
structure Config where
  powerLimiterEnabled : Bool
  solarPassThroughEnabled : Bool
  solarPassThroughLosses : ℚ
  batteryDrainStrategy : DrainStrategy
  isInverterBehindPowerMeter : Bool
  targetPowerConsumption : ℤ
  targetPowerConsumptionHysteresis : ℤ
  lowerPowerLimit : ℤ
  upperPowerLimit : ℤ
  batterySocStartThreshold : ℚ
  batterySocStopThreshold : ℚ
  voltageStartThreshold : ℚ
  voltageStopThreshold : ℚ
  fullSolarPassThroughSoc : ℚ
  fullSolarPassThroughStartVoltage : ℚ
  fullSolarPassThroughStopVoltage : ℚ
  voltageLoadCorrectionFactor : ℚ
  restartHour : ℤ
  batteryEnabled : Bool
  vedirectEnabled : Bool
  powerMeterEnabled : Bool
deriving DecidableEq

/-- Snapshot of one inverter as read through the Hoymiles interface:
reachability, production state, command bookkeeping, and the statistics
fields the power limiter reads. `dcChannelPowers` lists `FLD_PDC` for each
DC channel (`getChannelsByType(TYPE_DC)`). -/
structure Inverter where
  serial : ℕ
  isReachable : Bool
  isProducing : Bool
  enableCommands : Bool
  lastLimitCommandState : CmdState
  lastPowerCommandState : CmdState
  sysConfigLastUpdateCommand : ℕ
  powerLastUpdateCommand : ℕ
  statsLastUpdate : ℕ
  maxPower : ℤ
  acEfficiencyPercent : ℚ
  acPower : ℚ
  channelVoltage : ℚ
  dcChannelPowers : List ℚ
deriving DecidableEq

/-- Snapshot of the battery interface (`Battery.getStats()`). -/
structure BatteryView where
  isValid : Bool
  soc : ℚ
  socAgeSeconds : ℕ
deriving DecidableEq

/-- Snapshot of the VE.Direct MPPT solar charger (`VeDirectMppt.veFrame`). -/
structure SolarView where
  isDataValid : Bool
  V : ℚ
  I : ℚ
  PPV : ℚ
deriving DecidableEq

/-- Commands emitted towards the inverter radio. -/
inductive Cmd where
  | powerOff
  | powerOn
  | activeLimit (watts : ℤ)
  | restartInverter
deriving DecidableEq

/-- The mutable members of `PowerLimiterClass`. The bound inverter
(`_inverter`) is carried together with its current data snapshot. -/
structure DplState where
  inverter : Option Inverter
  shutdownTimeout : ℕ
  lastRequestedPowerLimit : ℤ
  lastPowerLimitMillis : ℕ
  lastCalculation : ℕ
  calculationBackoffMs : ℕ
  calculationBackoffMsDefault : ℕ
  nextInverterRestart : ℕ
  nextCalculateCheck : ℕ
  batteryDischargeEnabled : Bool
  fullSolarPassThroughEnabled : Bool
  mode : Mode
  lastStatus : Status
deriving DecidableEq

/-- The process start-up state. `_lastCalculation` and `_calculationBackoffMs`
are initialized to zero (source comment in `loop`); the remaining defaults
are modelled from the spec (Mode=Normal, Status=Initializing, no bound
inverter, safe zero defaults). -/
def initialState (backoffDefault : ℕ) : DplState where
  inverter := none
  shutdownTimeout := 0
  lastRequestedPowerLimit := 0
  lastPowerLimitMillis := 0
  lastCalculation := 0
  calculationBackoffMs := 0
  calculationBackoffMsDefault := backoffDefault
  nextInverterRestart := 0
  nextCalculateCheck := 0
  batteryDischargeEnabled := false
  fullSolarPassThroughEnabled := false
  mode := Mode.normal
  lastStatus := Status.initializing

/-- Per-tick snapshot of the external collaborators read by `loop`. -/
structure Env where
  now : ℕ
  localTimeValid : Bool
  timeHour : ℕ
  timeMin : ℕ
  currentInverter : Option Inverter
  battery : BatteryView
  solar : SolarView
  powerMeterTotal : ℚ
  powerMeterLastUpdate : ℕ
  huaweiAutoPower : Bool
deriving DecidableEq

/-- Source `announceStatus`: net effect on the `_lastStatus` member (the printing
and its rate limiting are not modelled). -/
def announce (s : DplState) (st : Status) : DplState := { s with lastStatus := st }

/-- Source `getLoadCorrectedVoltage`: `FLD_UDC` of the configured channel plus
`FLD_PAC` times the load correction factor; `0` when no inverter is bound
(logged programmer error) or the DC voltage is not positive. -/
def getLoadCorrectedVoltage (cfg : Config) (inv? : Option Inverter) : ℚ :=
  match inv? with
  | none => 0
  | some inv =>
    if inv.channelVoltage ≤ 0 then 0
    else inv.channelVoltage + inv.acPower * cfg.voltageLoadCorrectionFactor

/-- Source `testThreshold`: prefer the battery SoC when the battery interface is
enabled, the SoC threshold positive, and the reading valid and younger than
60 s; otherwise fall back to the load-corrected voltage, with a
non-positive voltage threshold meaning "no fallback" (false). -/
def testThreshold (cfg : Config) (bat : BatteryView) (inv? : Option Inverter)
    (socThreshold voltThreshold : ℚ) (compare : ℚ → ℚ → Bool) : Bool :=
  if cfg.batteryEnabled ∧ 0 < socThreshold ∧ bat.isValid = true ∧ bat.socAgeSeconds < 60 then
    compare bat.soc socThreshold
  else if voltThreshold ≤ 0 then false
  else compare (getLoadCorrectedVoltage cfg inv?) voltThreshold

/-- Source `isStartThresholdReached` (comparison `>=`). -/
def isStartThresholdReached (cfg : Config) (bat : BatteryView) (inv? : Option Inverter) : Bool :=
  testThreshold cfg bat inv? cfg.batterySocStartThreshold cfg.voltageStartThreshold
    (fun a b => decide (a ≥ b))

/-- Source `isStopThresholdReached` (comparison `<=`). -/
def isStopThresholdReached (cfg : Config) (bat : BatteryView) (inv? : Option Inverter) : Bool :=
  testThreshold cfg bat inv? cfg.batterySocStopThreshold cfg.voltageStopThreshold
    (fun a b => decide (a ≤ b))

/-- Source `isBelowStopThreshold` (strict comparison `<`). -/
def isBelowStopThreshold (cfg : Config) (bat : BatteryView) (inv? : Option Inverter) : Bool :=
  testThreshold cfg bat inv? cfg.batterySocStopThreshold cfg.voltageStopThreshold
    (fun a b => decide (a < b))

/-- Source `canUseDirectSolarPower`. -/
def canUseDirectSolarPower (cfg : Config) (bat : BatteryView) (inv? : Option Inverter)
    (ve : SolarView) : Bool :=
  if !cfg.solarPassThroughEnabled || isBelowStopThreshold cfg bat inv?
      || !cfg.vedirectEnabled || !ve.isDataValid then
    false
  else
    decide (ve.PPV ≥ 20)

/-- Source `getSolarChargePower` (`int32_t`): solar voltage times current when
direct solar power is usable, else `0`. -/
def getSolarChargePower (cfg : Config) (bat : BatteryView) (inv? : Option Inverter)
    (ve : SolarView) : ℤ :=
  if !canUseDirectSolarPower cfg bat inv? ve then 0
  else ratTrunc (ve.V * ve.I)

/-- Source `inverterPowerDcToAc`: scale DC power by the inverter's reported AC
efficiency (fallback 0.967 while not producing) and the configured losses. -/
def inverterPowerDcToAc (cfg : Config) (inv : Inverter) (dcPower : ℤ) : ℤ :=
  let inverterEfficiencyFactor : ℚ :=
    if 0 < inv.acEfficiencyPercent then inv.acEfficiencyPercent / 100 else 967/1000
  let lossesFactor : ℚ := 1 - cfg.solarPassThroughLosses / 100
  ratTrunc ((dcPower : ℚ) * inverterEfficiencyFactor * lossesFactor)

/-- Source `useFullSolarPassthrough`: returns `(new latch, returned value)`. When
general solar passthrough is disabled the function returns false without
touching the latch; otherwise the start condition sets the latch, then the
stop condition clears it, and the latch is returned. -/
def useFullSolarPassthrough (cfg : Config) (bat : BatteryView) (inv? : Option Inverter)
    (latch : Bool) : Bool × Bool :=
  if !cfg.solarPassThroughEnabled then (latch, false)
  else
    let l1 :=
      if testThreshold cfg bat inv? cfg.fullSolarPassThroughSoc
          cfg.fullSolarPassThroughStartVoltage (fun a b => decide (a ≥ b)) then true
      else latch
    let l2 :=
      if testThreshold cfg bat inv? cfg.fullSolarPassThroughSoc
          cfg.fullSolarPassThroughStopVoltage (fun a b => decide (a < b)) then false
      else l1
    (l2, l2)

/-- Source `calcPowerLimit`: the five-case decision table. Returns the computed
limit together with the (possibly updated) full-passthrough latch; the
latch is only touched when `batteryDischargeEnabled` holds, because the
source guards the `useFullSolarPassthrough()` call behind a short-circuit
conjunction. -/
def calcPowerLimit (cfg : Config) (inv : Inverter) (bat : BatteryView) (ve : SolarView)
    (meterTotal : ℚ) (autoPowerActive : Bool)
    (solarPowerEnabled batteryDischargeEnabled : Bool) (latch : Bool) : ℤ × Bool :=
  let newPowerLimit := cround meterTotal
  if !solarPowerEnabled && !batteryDischargeEnabled then
    -- Case 1 - no energy sources available
    (0, latch)
  else
    let acPower := ratTrunc inv.acPower
    let n1 := if cfg.isInverterBehindPowerMeter then newPowerLimit + acPower else newPowerLimit
    let n2 := n1 - cfg.targetPowerConsumption
    let adjustedVictronChargePower :=
      inverterPowerDcToAc cfg inv (getSolarChargePower cfg bat (some inv) ve)
    let (latch2, fullPassthrough) :=
      if batteryDischargeEnabled then useFullSolarPassthrough cfg bat (some inv) latch
      else (latch, false)
    if !(batteryDischargeEnabled && fullPassthrough) && autoPowerActive then
      -- yield to the PSU (auto power) unless in full solar passthrough
      (0, latch2)
    else
      -- Case 5 when both discharge and full passthrough hold
      let n3 := if batteryDischargeEnabled && fullPassthrough
        then max n2 adjustedVictronChargePower else n2
      -- Case 2 - limit power to solar power only
      let n4 := if solarPowerEnabled && !batteryDischargeEnabled
        then min n3 adjustedVictronChargePower else n3
      (n4, latch2)

/-- Source `commitPowerLimit`: stop first when disabling production, always send
the absolute non-persistent limit, start last when enabling production;
record the requested limit and its timestamp. -/
def commitPowerLimit (inv : Inverter) (limit : ℤ) (enablePowerProduction : Bool)
    (now : ℕ) (s : DplState) : DplState × List Cmd :=
  let pre := if !enablePowerProduction && inv.isProducing then [Cmd.powerOff] else []
  let post := if enablePowerProduction && !inv.isProducing then [Cmd.powerOn] else []
  ({ s with lastRequestedPowerLimit := limit, lastPowerLimitMillis := now },
   pre ++ [Cmd.activeLimit limit] ++ post)

/-- Source `shutdown(status)`: returns `(state, emitted commands, result)`; the
result is true while the inverter state is still about to change. -/
def shutdown (cfg : Config) (now : ℕ) (status : Status) (s : DplState) :
    DplState × List Cmd × Bool :=
  let s := announce s status
  match s.inverter with
  | none => ({ s with inverter := none, shutdownTimeout := 0 }, [], false)
  | some inv =>
    if !inv.isProducing || (decide (0 < s.shutdownTimeout) && decide (s.shutdownTimeout < now)) then
      ({ s with inverter := none, shutdownTimeout := 0 }, [], false)
    else if !inv.isReachable then (s, [], true)
    else
      let s := if s.shutdownTimeout = 0 then { s with shutdownTimeout := now + 10000 } else s
      if inv.lastLimitCommandState = CmdState.pending then (s, [], true)
      else if inv.lastPowerCommandState = CmdState.pending then (s, [], true)
      else
        let r := commitPowerLimit inv cfg.lowerPowerLimit false now s
        (r.1, r.2, true)

/-- Steps 2-4 of `setNewPowerLimit`: clamp to the configured upper limit,
scale by total/producing DC channels (a channel is producing when its last
power reading exceeds 2 W), clamp to the inverter's reported max power. -/
def effectivePowerLimit (cfg : Config) (inv : Inverter) (newPowerLimit : ℤ) : ℤ :=
  let e1 := min newPowerLimit cfg.upperPowerLimit
  let dcTotalChnls := inv.dcChannelPowers.length
  let dcProdChnls := (inv.dcChannelPowers.filter (fun p => decide (2 < p))).length
  let e2 :=
    if 0 < dcProdChnls ∧ dcProdChnls ≠ dcTotalChnls then
      cround ((e1 : ℚ) * (dcTotalChnls : ℚ) / (dcProdChnls : ℚ))
    else e1
  min e2 inv.maxPower

/-- Source `setNewPowerLimit`: shut down below the lower limit; otherwise sanitize
the limit, apply the hysteresis/staleness rule, and commit. Returns
`(state, emitted commands, limit updated)`. -/
def setNewPowerLimit (cfg : Config) (now : ℕ) (inv : Inverter) (newPowerLimit : ℤ)
    (s : DplState) : DplState × List Cmd × Bool :=
  if newPowerLimit < cfg.lowerPowerLimit then
    -- the default argument of shutdown() keeps the current status
    shutdown cfg now s.lastStatus s
  else
    let effPowerLimit := effectivePowerLimit cfg inv newPowerLimit
    let diff := |effPowerLimit - s.lastRequestedPowerLimit|
    let ageMillis := now - s.lastPowerLimitMillis
    if diff < cfg.targetPowerConsumptionHysteresis ∧ ageMillis < 60000 then (s, [], false)
    else
      let r := commitPowerLimit inv effPowerLimit true now s
      (r.1, r.2, true)

/-- Source `unconditionalSolarPassthrough`: shut down with `NoVeDirect` when the
solar data is unavailable, else commit the AC equivalent of the solar
voltage times current and announce the passthrough status. -/
def unconditionalSolarPassthrough (cfg : Config) (env : Env) (inv : Inverter)
    (s : DplState) : DplState × List Cmd :=
  if !cfg.vedirectEnabled || !env.solar.isDataValid then
    let r := shutdown cfg env.now Status.noVeDirect s
    (r.1, r.2.1)
  else
    let solarPower := ratTrunc (env.solar.V * env.solar.I)
    let r := setNewPowerLimit cfg env.now inv (inverterPowerDcToAc cfg inv solarPower) s
    (announce r.1 Status.unconditionalSolarPassthrough, r.2.1)

/-- Source `calcNextInverterRestart`: a negative configured hour disables the
feature (deadline 1); with valid time the deadline is the minute distance
to the configured hour (wrapping to the next day when the configured hour
is not strictly in the future), in milliseconds, added to the clock
(`uint32_t` arithmetic); without valid time the deadline stays 0. -/
def calcNextInverterRestart (cfg : Config) (env : Env) (s : DplState) : DplState :=
  if cfg.restartHour < 0 then { s with nextInverterRestart := 1 }
  else if env.localTimeValid then
    let dayMinutes := env.timeHour * 60 + env.timeMin
    let targetMinutes := cfg.restartHour.toNat * 60
    let minutesToRestart :=
      if (env.timeHour : ℤ) < cfg.restartHour then targetMinutes - dayMinutes
      else 1440 - dayMinutes + targetMinutes
    { s with nextInverterRestart := (minutesToRestart * 60000 + env.now) % U32 }
  else { s with nextInverterRestart := 0 }

/-- The battery-discharge-enabled policy evaluated each computing tick. -/
def updateBatteryDischargeEnabled (cfg : Config) (bat : BatteryView) (inv? : Option Inverter)
    (ve : SolarView) (prev : Bool) : Bool :=
  if isStopThresholdReached cfg bat inv? then false
  else
    let b1 :=
      if !cfg.solarPassThroughEnabled && isStartThresholdReached cfg bat inv? then true else prev
    let b2 :=
      if cfg.solarPassThroughEnabled && decide (cfg.batteryDrainStrategy = DrainStrategy.emptyAtNight) then
        (if isStartThresholdReached cfg bat inv? then true
         else !canUseDirectSolarPower cfg bat inv? ve)
      else b1
    let b3 :=
      if cfg.solarPassThroughEnabled && isStartThresholdReached cfg bat inv?
          && decide (cfg.batteryDrainStrategy = DrainStrategy.emptyWhenFull) then true
      else b2
    b3

/-- The inverter restart scheduler block at the head of the computing part
of `loop`: fire a due restart (deadline &gt; 1 and reached) and recompute the
deadline; recompute an uncomputed deadline at most every 5 s while the
restart hour is configured. -/
def restartScheduler (cfg : Config) (env : Env) (s : DplState) : DplState × List Cmd :=
  let fire :=
    if 1 < s.nextInverterRestart ∧ s.nextInverterRestart ≤ env.now then
      (calcNextInverterRestart cfg env s, [Cmd.restartInverter])
    else (s, ([] : List Cmd))
  let s1 := fire.1
  let s2 :=
    if 0 ≤ cfg.restartHour ∧ s1.nextInverterRestart = 0 then
      if s1.nextCalculateCheck < env.now then
        if env.localTimeValid then calcNextInverterRestart cfg env s1
        else { s1 with nextCalculateCheck := s1.nextCalculateCheck + 5000 }
      else s1
    else s1
  (s2, fire.2)

/-- The computing tail of `loop` (restart scheduler, discharge policy,
limit calculation, commit, backoff update). -/
def loopCompute (cfg : Config) (env : Env) (cur : Inverter) (s : DplState) :
    DplState × List Cmd :=
  let sched := restartScheduler cfg env s
  let bde := updateBatteryDischargeEnabled cfg env.battery (some cur) env.solar
    sched.1.batteryDischargeEnabled
  let s1 := { sched.1 with batteryDischargeEnabled := bde }
  let solarPowerEnabled := canUseDirectSolarPower cfg env.battery (some cur) env.solar
  let calcRes :=
    calcPowerLimit cfg cur env.battery env.solar env.powerMeterTotal env.huaweiAutoPower
      solarPowerEnabled s1.batteryDischargeEnabled s1.fullSolarPassThroughEnabled
  let s2 := { s1 with fullSolarPassThroughEnabled := calcRes.2 }
  let res := setNewPowerLimit cfg env.now cur calcRes.1 s2
  let s3 := { res.1 with lastCalculation := env.now }
  if !res.2.2 then
    (announce { s3 with calculationBackoffMs := min 1024 (s3.calculationBackoffMs * 2) }
      Status.stable, sched.2 ++ res.2.1)
  else
    ({ s3 with calculationBackoffMs := s3.calculationBackoffMsDefault }, sched.2 ++ res.2.1)

/-- One invocation of `PowerLimiterClass::loop`: the priority chain of
guards followed by the computing tail. -/
def loop (cfg : Config) (env : Env) (s : DplState) : DplState × List Cmd :=
  if !env.localTimeValid then (announce s Status.waitingForValidTimestamp, [])
  else if 0 < s.shutdownTimeout then
    let r := shutdown cfg env.now s.lastStatus s
    (r.1, r.2.1)
  else if !cfg.powerLimiterEnabled then
    let r := shutdown cfg env.now Status.disabledByConfig s
    (r.1, r.2.1)
  else if s.mode = Mode.disabled then
    let r := shutdown cfg env.now Status.disabledByMqtt s
    (r.1, r.2.1)
  else
    match env.currentInverter with
    | none =>
      let r := shutdown cfg env.now Status.inverterInvalid s
      (r.1, r.2.1)
    | some cur =>
      if (match s.inverter with
          | some inv => decide (inv.serial ≠ cur.serial)
          | none => false) then
        let r := shutdown cfg env.now Status.inverterChanged s
        (r.1, r.2.1)
      else
        let s := { s with inverter := some cur }
        if !cur.isReachable then (announce s Status.inverterOffline, [])
        else if !cur.enableCommands then (announce s Status.inverterCommandsDisabled, [])
        else if cur.lastLimitCommandState = CmdState.pending then
          (announce s Status.inverterLimitPending, [])
        else if cur.lastPowerCommandState = CmdState.pending then
          (announce s Status.inverterPowerCmdPending, [])
        else if cur.maxPower ≤ 0 then (announce s Status.inverterDevInfoPending, [])
        else if s.mode = Mode.unconditionalFullSolarPassthrough then
          unconditionalSolarPassthrough cfg env cur s
        else if !cfg.powerMeterEnabled then
          let r := shutdown cfg env.now Status.powerMeterDisabled s
          (r.1, r.2.1)
        else if 30000 < env.now - env.powerMeterLastUpdate then
          let r := shutdown cfg env.now Status.powerMeterTimeout s
          (r.1, r.2.1)
        else
          let settlingEnd := max cur.sysConfigLastUpdateCommand cur.powerLastUpdateCommand + 3000
          if env.now < settlingEnd then (announce s Status.settling, [])
          else if cur.statsLastUpdate ≤ settlingEnd then
            (announce s Status.inverterStatsPending, [])
          else if env.powerMeterLastUpdate ≤ settlingEnd then
            (announce s Status.powerMeterPending, [])
          else if env.now < s.lastCalculation + s.calculationBackoffMs then
            (announce s Status.stable, [])
          else loopCompute cfg env cur s

/-! ## Concrete instances used by counterexamples and witnesses -/

/-- A baseline configuration for concrete evaluations. -/
def cfg0 : Config where
  powerLimiterEnabled := true
  solarPassThroughEnabled := false
  solarPassThroughLosses := 0
  batteryDrainStrategy := DrainStrategy.emptyWhenFull
  isInverterBehindPowerMeter := false
  targetPowerConsumption := 0
  targetPowerConsumptionHysteresis := 0
  lowerPowerLimit := 50
  upperPowerLimit := 800
  batterySocStartThreshold := 0
  batterySocStopThreshold := 0
  voltageStartThreshold := 0
  voltageStopThreshold := 0
  fullSolarPassThroughSoc := 0
  fullSolarPassThroughStartVoltage := 0
  fullSolarPassThroughStopVoltage := 0
  voltageLoadCorrectionFactor := 0
  restartHour := -1
  batteryEnabled := false
  vedirectEnabled := false
  powerMeterEnabled := true

/-- A baseline inverter snapshot: reachable, commands enabled, not
producing, all commands acknowledged. -/
def inv0 : Inverter where
  serial := 1
  isReachable := true
  isProducing := false
  enableCommands := true
  lastLimitCommandState := CmdState.ok
  lastPowerCommandState := CmdState.ok
  sysConfigLastUpdateCommand := 0
  powerLastUpdateCommand := 0
  statsLastUpdate := 40000
  maxPower := 800
  acEfficiencyPercent := 100
  acPower := 0
  channelVoltage := 0
  dcChannelPowers := [10]

/-- A baseline battery snapshot: no valid reading. -/
def bat0 : BatteryView := { isValid := false, soc := 0, socAgeSeconds := 1000 }

/-- A baseline solar charger snapshot: no valid data. -/
def ve0 : SolarView := { isDataValid := false, V := 0, I := 0, PPV := 0 }

/-- A baseline per-tick environment: valid time at noon, fresh meter
reading of 500 W, the baseline inverter resolvable. -/
def env0 : Env where
  now := 50000
  localTimeValid := true
  timeHour := 12
  timeMin := 0
  currentInverter := some inv0
  battery := bat0
  solar := ve0
  powerMeterTotal := 500
  powerMeterLastUpdate := 45000
  huaweiAutoPower := false

/-- Configuration with solar passthrough and VE.Direct enabled. -/
def cfgA : Config := { cfg0 with solarPassThroughEnabled := true, vedirectEnabled := true }

/-- Valid solar data: 100 V times 3 A, instantaneous power 25 W. -/
def veA : SolarView := { isDataValid := true, V := 100, I := 3, PPV := 25 }

/-! ## C8: the threshold evaluator -/

/-- C8: `testThreshold(socThreshold, voltThreshold, compare)` evaluates
`compare(batterySoC, socThreshold)` exactly when battery integration is
enabled, `socThreshold > 0`, the battery reading is valid, and its age is
under 60 seconds; otherwise it returns false when `voltThreshold ≤ 0`, and
otherwise evaluates `compare(loadCorrectedVoltage, voltThreshold)`, where
the load-corrected voltage is `dcVoltage + acPower * correctionFactor` and
is 0 when `dcVoltage ≤ 0` or when no inverter is bound (the safe default
of the logged programmer error). -/
theorem testThreshold_spec (cfg : Config) (bat : BatteryView) (inv? : Option Inverter)
    (socThreshold voltThreshold : ℚ) (compare : ℚ → ℚ → Bool) :
    testThreshold cfg bat inv? socThreshold voltThreshold compare =
      if cfg.batteryEnabled = true ∧ 0 < socThreshold ∧ bat.isValid = true ∧
          bat.socAgeSeconds < 60 then
        compare bat.soc socThreshold
      else if voltThreshold ≤ 0 then false
      else
        compare
          (match inv? with
           | none => 0
           | some inv =>
             if inv.channelVoltage ≤ 0 then 0
             else inv.channelVoltage + inv.acPower * cfg.voltageLoadCorrectionFactor)
          voltThreshold := by
  unfold testThreshold getLoadCorrectedVoltage
  rcases inv? with _ | inv <;> simp

/-! ## C9: the inverter restart scheduler -/

/-- C9: a negative configured restart hour fixes the deadline at 1
(disabled); otherwise, with valid time available, the deadline equals
(minutes until the configured hour) * 60000 plus the current millisecond
clock, wrapping to the next day when the configured hour is not strictly
ahead of the current hour. -/
theorem calcNextInverterRestart_spec (cfg : Config) (env : Env) (s : DplState)
    (hhour : env.timeHour < 24) (hmin : env.timeMin < 60)
    (ht : env.localTimeValid = true)
    (hnoOverflow : (1440 + cfg.restartHour.toNat * 60) * 60000 + env.now < 2 ^ 32) :
    (cfg.restartHour < 0 →
      (calcNextInverterRestart cfg env s).nextInverterRestart = 1) ∧
    (0 ≤ cfg.restartHour →
      (calcNextInverterRestart cfg env s).nextInverterRestart =
        (if (env.timeHour : ℤ) < cfg.restartHour then
          cfg.restartHour.toNat * 60 - (env.timeHour * 60 + env.timeMin)
        else 1440 - (env.timeHour * 60 + env.timeMin) + cfg.restartHour.toNat * 60)
          * 60000 + env.now) := by
  constructor
  · intro hneg
    simp [calcNextInverterRestart, hneg]
  · intro hpos
    have hnotneg : ¬ cfg.restartHour < 0 := not_lt.mpr hpos
    simp only [calcNextInverterRestart, hnotneg, if_false, ht, if_true]
    set m : ℕ :=
      if (env.timeHour : ℤ) < cfg.restartHour then
        cfg.restartHour.toNat * 60 - (env.timeHour * 60 + env.timeMin)
      else 1440 - (env.timeHour * 60 + env.timeMin) + cfg.restartHour.toNat * 60 with hm
    have hmle : m ≤ 1440 + cfg.restartHour.toNat * 60 := by
      rw [hm]; split <;> omega
    have : m * 60000 + env.now < 2 ^ 32 := by
      have : m * 60000 ≤ (1440 + cfg.restartHour.toNat * 60) * 60000 :=
        Nat.mul_le_mul_right _ hmle
      omega
    simpa [U32] using Nat.mod_eq_of_lt this

/-- Witness for `calcNextInverterRestart_spec`: configured hour 3 at 12:00
wraps to the next day, 900 minutes ahead of `now = 50000`. -/
theorem calcNextInverterRestart_spec_witness :
    (calcNextInverterRestart { cfg0 with restartHour := 3 } env0
      (initialState 32)).nextInverterRestart = 54050000 := by
  have h := (calcNextInverterRestart_spec { cfg0 with restartHour := 3 } env0
    (initialState 32) (by decide) (by decide) (by decide) (by decide)).2 (by decide)
  simpa using h

/-! ## C6: the solar availability oracle -/

/-- Configuration for the C6 counterexample: battery integration enabled
with a SoC stop threshold of 50 %. -/
def cfgB : Config := { cfgA with batteryEnabled := true, batterySocStopThreshold := 50 }

/-- Battery exactly at the stop threshold, reading valid and fresh. -/
def batB : BatteryView := { isValid := true, soc := 50, socAgeSeconds := 10 }

/-- C6 counterexample: with the battery exactly at (not strictly below) the
stop threshold and all other gates passing, `canUseDirectSolarPower`
returns true, contradicting the claim that a battery "below/at the stop
threshold" makes it return false. The code tests the stop threshold with
strict `<` (`isBelowStopThreshold`). -/
theorem canUseDirectSolarPower_at_stop_threshold :
    batB.soc ≤ cfgB.batterySocStopThreshold ∧
    canUseDirectSolarPower cfgB batB none veA = true := by decide

/-- C6 amended: `canUseDirectSolarPower()` returns true iff solar
passthrough is enabled, the battery is NOT strictly below the stop
threshold, the solar charger integration is enabled, the solar data is
valid, and the instantaneous solar power is at least 20 W; and
`getSolarChargePower()` returns solar voltage times current when direct
solar power is usable and 0 otherwise. -/
theorem canUseDirectSolarPower_spec (cfg : Config) (bat : BatteryView)
    (inv? : Option Inverter) (ve : SolarView) :
    (canUseDirectSolarPower cfg bat inv? ve = true ↔
      cfg.solarPassThroughEnabled = true ∧ isBelowStopThreshold cfg bat inv? = false ∧
      cfg.vedirectEnabled = true ∧ ve.isDataValid = true ∧ 20 ≤ ve.PPV) ∧
    getSolarChargePower cfg bat inv? ve =
      (if canUseDirectSolarPower cfg bat inv? ve = true then ratTrunc (ve.V * ve.I)
       else 0) := by
  constructor
  · unfold canUseDirectSolarPower
    cases hs : cfg.solarPassThroughEnabled <;>
      cases hb : isBelowStopThreshold cfg bat inv? <;>
        cases hv : cfg.vedirectEnabled <;>
          cases hd : ve.isDataValid <;> simp [ge_iff_le]
  · unfold getSolarChargePower
    cases hc : canUseDirectSolarPower cfg bat inv? ve <;> simp

/-! ## C7: the full-passthrough latch -/

/-- Configuration for the C7 counterexample: general solar passthrough
disabled, full-passthrough start voltage 40 V. -/
def cfgC : Config := { cfg0 with fullSolarPassThroughStartVoltage := 40 }

/-- Inverter for the C7 counterexample: 50 V on the configured channel, so
the load-corrected voltage meets the 40 V start threshold. -/
def invC : Inverter := { inv0 with channelVoltage := 50 }

/-- C7 counterexample: a measurement meeting the full-passthrough start
condition does NOT set the latch when general solar passthrough is
disabled in configuration: the function returns false and leaves the latch
untouched. -/
theorem useFullSolarPassthrough_ignores_start_when_disabled :
    testThreshold cfgC bat0 (some invC) cfgC.fullSolarPassThroughSoc
        cfgC.fullSolarPassThroughStartVoltage (fun a b => decide (a ≥ b)) = true ∧
    useFullSolarPassthrough cfgC bat0 (some invC) false = (false, false) := by
  refine ⟨?_, ?_⟩ <;>
    norm_num [useFullSolarPassthrough, testThreshold, getLoadCorrectedVoltage, cfgC, invC,
      cfg0, inv0, bat0]

/-- C7 amended: provided general solar passthrough is enabled (otherwise
the function returns false without updating the latch), the latch
exhibits hysteresis: a measurement meeting the stop condition clears the
latch (stop takes precedence when both conditions hold), a measurement
meeting the start condition but not the stop condition sets it, and a
measurement meeting neither retains the previous value; the function
returns the updated latch. -/
theorem useFullSolarPassthrough_latch_spec (cfg : Config) (bat : BatteryView)
    (inv? : Option Inverter) (latch : Bool)
    (hspt : cfg.solarPassThroughEnabled = true) :
    (testThreshold cfg bat inv? cfg.fullSolarPassThroughSoc
        cfg.fullSolarPassThroughStopVoltage (fun a b => decide (a < b)) = true →
      useFullSolarPassthrough cfg bat inv? latch = (false, false)) ∧
    (testThreshold cfg bat inv? cfg.fullSolarPassThroughSoc
        cfg.fullSolarPassThroughStartVoltage (fun a b => decide (a ≥ b)) = true →
      testThreshold cfg bat inv? cfg.fullSolarPassThroughSoc
        cfg.fullSolarPassThroughStopVoltage (fun a b => decide (a < b)) = false →
      useFullSolarPassthrough cfg bat inv? latch = (true, true)) ∧
    (testThreshold cfg bat inv? cfg.fullSolarPassThroughSoc
        cfg.fullSolarPassThroughStartVoltage (fun a b => decide (a ≥ b)) = false →
      testThreshold cfg bat inv? cfg.fullSolarPassThroughSoc
        cfg.fullSolarPassThroughStopVoltage (fun a b => decide (a < b)) = false →
      useFullSolarPassthrough cfg bat inv? latch = (latch, latch)) := by
  refine ⟨fun hstop => ?_, fun hstart hstop => ?_, fun hstart hstop => ?_⟩
  · simp [useFullSolarPassthrough, hspt, hstop]
  · simp [useFullSolarPassthrough, hspt, hstart, hstop]
  · simp [useFullSolarPassthrough, hspt, hstart, hstop]

/-- Configuration for the `useFullSolarPassthrough_latch_spec` witness:
solar passthrough enabled, stop voltage 40 V. -/
def cfgD : Config :=
  { cfg0 with solarPassThroughEnabled := true, fullSolarPassThroughStopVoltage := 40 }

/-- Inverter for the latch witness: 30 V on the configured channel, below
the 40 V stop threshold. -/
def invD : Inverter := { inv0 with channelVoltage := 30 }

/-- Witness for `useFullSolarPassthrough_latch_spec`: a measurement meeting
the stop condition clears a previously set latch. -/
theorem useFullSolarPassthrough_latch_spec_witness :
    useFullSolarPassthrough cfgD bat0 (some invD) true = (false, false) := by
  refine (useFullSolarPassthrough_latch_spec cfgD bat0 (some invD) true rfl).1 ?_
  norm_num [testThreshold, getLoadCorrectedVoltage, cfgD, invD, cfg0, inv0, bat0]

/-! ## C1: the five-case power limit decision table -/

/-- C1 counterexample: with solar enabled, discharge disabled (case 2) and
the external auto-power source active, `calcPowerLimit` returns 0, not
`min(raw, solarAC)`: the auto-power short-circuit applies whenever the
full-passthrough branch is not taken, i.e. also in case 2. Here the meter
reads 500 W, the offset is 0 and the AC-equivalent solar power is 300 W. -/
theorem calcPowerLimit_autopower_in_case2 :
    (calcPowerLimit cfgA inv0 bat0 veA 500 true true false false).1 = 0 ∧
    (0 : ℤ) ≠
      min (cround 500 - cfgA.targetPowerConsumption)
        (inverterPowerDcToAc cfgA inv0 (getSolarChargePower cfgA bat0 (some inv0) veA)) := by
  refine ⟨?_, ?_⟩ <;>
    norm_num [calcPowerLimit, cfgA, cfg0, inv0, bat0, veA, canUseDirectSolarPower,
      isBelowStopThreshold, testThreshold, getLoadCorrectedVoltage, getSolarChargePower,
      inverterPowerDcToAc, ratTrunc, cround, useFullSolarPassthrough]

/-- C1 amended: with `raw` equal to the rounded meter power (plus the
inverter's last reported AC power if the inverter is behind the meter)
minus the target consumption offset, `calcPowerLimit` returns 0 in case 1
(no solar, no discharge); `max(raw, solarAC)` in case 5 (discharge enabled
and full passthrough true); otherwise 0 whenever the external auto-power
source is active (this covers cases 2, 3 and 4 — not only 3/4 as claimed);
otherwise `min(raw, solarAC)` in case 2 (solar enabled, discharge
disabled); otherwise `raw` (cases 3/4). -/
theorem calcPowerLimit_table (cfg : Config) (inv : Inverter) (bat : BatteryView)
    (ve : SolarView) (meterTotal : ℚ) (autoPowerActive : Bool) (S D latch : Bool) :
    (calcPowerLimit cfg inv bat ve meterTotal autoPowerActive S D latch).1 =
      (let raw := (if cfg.isInverterBehindPowerMeter then
          cround meterTotal + ratTrunc inv.acPower else cround meterTotal) -
          cfg.targetPowerConsumption
       let solarAC := inverterPowerDcToAc cfg inv (getSolarChargePower cfg bat (some inv) ve)
       let fullPT := (useFullSolarPassthrough cfg bat (some inv) latch).2
       if S = false ∧ D = false then 0
       else if D = true ∧ fullPT = true then max raw solarAC
       else if autoPowerActive = true then 0
       else if S = true ∧ D = false then min raw solarAC
       else raw) := by
  rcases hF : useFullSolarPassthrough cfg bat (some inv) latch with ⟨l2, f⟩
  cases S <;> cases D <;> cases f <;> cases autoPowerActive <;>
    simp [calcPowerLimit, hF]

/-! ## C2: hysteresis and staleness in the limit committer -/

/-- C2: for a requested limit at or above the configured lower bound,
`setNewPowerLimit` skips (returns false, sends no command, leaves the
state unchanged) if and only if the absolute difference between the
effective limit and the last requested limit is below the hysteresis AND
the last command is less than 60 s old; when the last command is at least
60 s old the limit is always (re-)sent. -/
theorem setNewPowerLimit_hysteresis (cfg : Config) (now : ℕ) (inv : Inverter)
    (newPowerLimit : ℤ) (s : DplState)
    (hreq : cfg.lowerPowerLimit ≤ newPowerLimit)
    (hage : s.lastPowerLimitMillis ≤ now) :
    ((setNewPowerLimit cfg now inv newPowerLimit s = (s, [], false)) ↔
      (|effectivePowerLimit cfg inv newPowerLimit - s.lastRequestedPowerLimit| <
          cfg.targetPowerConsumptionHysteresis ∧
        now - s.lastPowerLimitMillis < 60000)) ∧
    (60000 ≤ now - s.lastPowerLimitMillis →
      (setNewPowerLimit cfg now inv newPowerLimit s).2.2 = true) := by
  unfold setNewPowerLimit
  rw [if_neg (not_lt.mpr hreq)]
  by_cases hc :
      |effectivePowerLimit cfg inv newPowerLimit - s.lastRequestedPowerLimit| <
          cfg.targetPowerConsumptionHysteresis ∧
        now - s.lastPowerLimitMillis < 60000
  · rw [if_pos hc]
    exact ⟨by simpa using hc, fun h60 => absurd hc.2 (by omega)⟩
  · rw [if_neg hc]
    refine ⟨⟨fun heq => ?_, fun h => absurd h hc⟩, fun _ => by simp [commitPowerLimit]⟩
    have := congrArg (fun t => t.2.2) heq
    simp [commitPowerLimit] at this

/-- Witness for `setNewPowerLimit_hysteresis`: with the last command 70 s
old and a zero difference (hysteresis 0), the limit is re-sent. -/
theorem setNewPowerLimit_hysteresis_witness :
    (setNewPowerLimit cfg0 70000 inv0 100 (initialState 32)).2.2 = true := by
  exact (setNewPowerLimit_hysteresis cfg0 70000 inv0 100 (initialState 32)
    (by norm_num [cfg0]) (by norm_num [initialState])).2 (by norm_num [initialState])

/-! ## C3: shutdown request and limit sanitizing in the limit committer -/

/-- C3: if the requested limit is strictly below the configured lower
power limit, `setNewPowerLimit` requests a shutdown (with the status kept)
and returns whatever `shutdown` reports; otherwise the effective limit
equals the requested value clamped to the configured upper limit, then,
when the count of DC channels producing more than 2 W is strictly between
0 and the total channel count, multiplied by total/producing channels and
rounded, and finally clamped to the inverter's reported maximum power;
whenever a limit command is emitted it carries that effective limit. -/
theorem setNewPowerLimit_bounds (cfg : Config) (now : ℕ) (inv : Inverter)
    (newPowerLimit : ℤ) (s : DplState) :
    (newPowerLimit < cfg.lowerPowerLimit →
      setNewPowerLimit cfg now inv newPowerLimit s = shutdown cfg now s.lastStatus s) ∧
    (cfg.lowerPowerLimit ≤ newPowerLimit →
      effectivePowerLimit cfg inv newPowerLimit =
        min
          (if 0 < (inv.dcChannelPowers.filter (fun p => decide (2 < p))).length ∧
              (inv.dcChannelPowers.filter (fun p => decide (2 < p))).length <
                inv.dcChannelPowers.length then
            cround (((min newPowerLimit cfg.upperPowerLimit : ℤ) : ℚ) *
              (inv.dcChannelPowers.length : ℚ) /
              ((inv.dcChannelPowers.filter (fun p => decide (2 < p))).length : ℚ))
          else min newPowerLimit cfg.upperPowerLimit)
          inv.maxPower ∧
      ((setNewPowerLimit cfg now inv newPowerLimit s).2.2 = true →
        Cmd.activeLimit (effectivePowerLimit cfg inv newPowerLimit) ∈
          (setNewPowerLimit cfg now inv newPowerLimit s).2.1)) := by
  constructor
  · intro hlow
    unfold setNewPowerLimit
    rw [if_pos hlow]
  · intro hreq
    have hle : (inv.dcChannelPowers.filter (fun p => decide (2 < p))).length ≤
        inv.dcChannelPowers.length := List.length_filter_le _ _
    constructor
    · have hiff :
          (0 < (inv.dcChannelPowers.filter (fun p => decide (2 < p))).length ∧
            (inv.dcChannelPowers.filter (fun p => decide (2 < p))).length ≠
              inv.dcChannelPowers.length) ↔
          (0 < (inv.dcChannelPowers.filter (fun p => decide (2 < p))).length ∧
            (inv.dcChannelPowers.filter (fun p => decide (2 < p))).length <
              inv.dcChannelPowers.length) := by
        constructor <;> exact fun h => ⟨h.1, by omega⟩
      simp only [effectivePowerLimit]
      congr 1
      exact if_congr hiff rfl rfl
    · intro hsent
      unfold setNewPowerLimit at hsent ⊢
      rw [if_neg (not_lt.mpr hreq)] at hsent ⊢
      by_cases hc :
          |effectivePowerLimit cfg inv newPowerLimit - s.lastRequestedPowerLimit| <
              cfg.targetPowerConsumptionHysteresis ∧
            now - s.lastPowerLimitMillis < 60000
      · rw [if_pos hc] at hsent
        simp at hsent
      · rw [if_neg hc]
        simp [commitPowerLimit]

/-- Witness for `setNewPowerLimit_bounds`: requesting 0 W with a lower
bound of 50 W requests a shutdown. -/
theorem setNewPowerLimit_bounds_witness :
    setNewPowerLimit cfg0 1000 inv0 0 (initialState 32) =
      shutdown cfg0 1000 (initialState 32).lastStatus (initialState 32) := by
  exact (setNewPowerLimit_bounds cfg0 1000 inv0 0 (initialState 32)).1 (by norm_num [cfg0])

/-! ## C5: shutdown retry and timeout -/

/-- C5: on a bound, producing inverter, a `shutdown` call while the
inverter is unreachable and the 10-second deadline has not elapsed leaves
the state unchanged (apart from announcing the status) and reports "still
trying" — the binding is never cleared before the deadline; and any call
after the deadline has elapsed clears the binding and the timer and
reports "already stopped", even if the inverter is still unreachable. -/
theorem shutdown_retry_timeout (cfg : Config) (now : ℕ) (status : Status)
    (s : DplState) (inv : Inverter)
    (hbound : s.inverter = some inv) (hprod : inv.isProducing = true) :
    (inv.isReachable = false → ¬(0 < s.shutdownTimeout ∧ s.shutdownTimeout < now) →
      shutdown cfg now status s = (announce s status, [], true)) ∧
    (0 < s.shutdownTimeout → s.shutdownTimeout < now →
      (shutdown cfg now status s).1.inverter = none ∧
      (shutdown cfg now status s).1.shutdownTimeout = 0 ∧
      (shutdown cfg now status s).2.2 = false) := by
  constructor
  · intro hun htime
    have hcond : (!inv.isProducing ||
        (decide (0 < s.shutdownTimeout) && decide (s.shutdownTimeout < now))) = false := by
      rw [hprod]
      simp only [Bool.not_true, Bool.false_or, Bool.and_eq_false_iff]
      rcases Nat.lt_or_ge s.shutdownTimeout now with h | h
      · left
        simp only [decide_eq_false_iff_not]
        intro h0
        exact htime ⟨h0, h⟩
      · right
        simp only [decide_eq_false_iff_not]
        omega
    unfold shutdown
    dsimp only [announce]
    rw [hbound]
    dsimp only []
    rw [hcond]
    simp [hun, announce]
  · intro h0 hlt
    have hcond : (!inv.isProducing ||
        (decide (0 < s.shutdownTimeout) && decide (s.shutdownTimeout < now))) = true := by
      simp [h0, hlt]
    unfold shutdown
    dsimp only [announce]
    rw [hbound]
    dsimp only []
    rw [hcond]
    simp

/-- Inverter for the C5 witness: bound and producing. -/
def invP : Inverter := { inv0 with isProducing := true }

/-- State for the C5 witness: bound to `invP`, shutdown deadline at 5 ms. -/
def sP : DplState := { initialState 32 with inverter := some invP, shutdownTimeout := 5 }

/-- Witness for `shutdown_retry_timeout`: at `now = 10` the deadline (5)
has elapsed, so the binding and timer are cleared and false is reported. -/
theorem shutdown_retry_timeout_witness :
    (shutdown cfg0 10 Status.stable sP).1.inverter = none ∧
    (shutdown cfg0 10 Status.stable sP).1.shutdownTimeout = 0 ∧
    (shutdown cfg0 10 Status.stable sP).2.2 = false := by
  exact (shutdown_retry_timeout cfg0 10 Status.stable sP invP rfl rfl).2
    (by norm_num [sP, initialState]) (by norm_num [sP, initialState])

/-! ## C4: the calculation backoff -/

/-- Helper: `shutdown` never touches the calculation backoff or its default. -/
theorem shutdown_backoff (cfg : Config) (now : ℕ) (st : Status) (s : DplState) :
    (shutdown cfg now st s).1.calculationBackoffMs = s.calculationBackoffMs ∧
    (shutdown cfg now st s).1.calculationBackoffMsDefault = s.calculationBackoffMsDefault := by
  unfold shutdown announce commitPowerLimit
  cases hs : s.inverter <;> dsimp only [] <;> (repeat' split) <;> exact ⟨rfl, rfl⟩

/-- Helper: `setNewPowerLimit` never touches the calculation backoff or its
default. -/
theorem setNewPowerLimit_backoff (cfg : Config) (now : ℕ) (inv : Inverter)
    (newPowerLimit : ℤ) (s : DplState) :
    (setNewPowerLimit cfg now inv newPowerLimit s).1.calculationBackoffMs =
      s.calculationBackoffMs ∧
    (setNewPowerLimit cfg now inv newPowerLimit s).1.calculationBackoffMsDefault =
      s.calculationBackoffMsDefault := by
  unfold setNewPowerLimit
  split
  · exact shutdown_backoff cfg now s.lastStatus s
  · unfold commitPowerLimit
    dsimp only []
    split
    · exact ⟨rfl, rfl⟩
    · exact ⟨rfl, rfl⟩

/-- Helper: `calcNextInverterRestart` never touches the calculation backoff or its
default. -/
theorem calcNextInverterRestart_backoff (cfg : Config) (env : Env) (s : DplState) :
    (calcNextInverterRestart cfg env s).calculationBackoffMs = s.calculationBackoffMs ∧
    (calcNextInverterRestart cfg env s).calculationBackoffMsDefault =
      s.calculationBackoffMsDefault := by
  unfold calcNextInverterRestart
  (repeat' split) <;> exact ⟨rfl, rfl⟩

/-- The deadline-recomputation block of the restart scheduler never touches
the calculation backoff or its default. -/
theorem restartSchedulerStep2_backoff (cfg : Config) (env : Env) (t : DplState) :
    (if 0 ≤ cfg.restartHour ∧ t.nextInverterRestart = 0 then
      if t.nextCalculateCheck < env.now then
        if env.localTimeValid then calcNextInverterRestart cfg env t
        else { t with nextCalculateCheck := t.nextCalculateCheck + 5000 }
      else t
    else t).calculationBackoffMs = t.calculationBackoffMs ∧
    (if 0 ≤ cfg.restartHour ∧ t.nextInverterRestart = 0 then
      if t.nextCalculateCheck < env.now then
        if env.localTimeValid then calcNextInverterRestart cfg env t
        else { t with nextCalculateCheck := t.nextCalculateCheck + 5000 }
      else t
    else t).calculationBackoffMsDefault = t.calculationBackoffMsDefault := by
  (repeat' split) <;>
    first
    | exact ⟨rfl, rfl⟩
    | exact calcNextInverterRestart_backoff cfg env t

/-- The restart scheduler never touches the calculation backoff or its
default. -/
theorem restartScheduler_backoff (cfg : Config) (env : Env) (s : DplState) :
    (restartScheduler cfg env s).1.calculationBackoffMs = s.calculationBackoffMs ∧
    (restartScheduler cfg env s).1.calculationBackoffMsDefault =
      s.calculationBackoffMsDefault := by
  unfold restartScheduler
  dsimp only []
  rcases em (1 < s.nextInverterRestart ∧ s.nextInverterRestart ≤ env.now) with h1 | h1
  · rw [if_pos h1]
    dsimp only []
    refine ⟨(restartSchedulerStep2_backoff cfg env _).1.trans ?_,
      (restartSchedulerStep2_backoff cfg env _).2.trans ?_⟩
    · exact (calcNextInverterRestart_backoff cfg env s).1
    · exact (calcNextInverterRestart_backoff cfg env s).2
  · rw [if_neg h1]
    dsimp only []
    exact restartSchedulerStep2_backoff cfg env s

/-- The computing tail either doubles the backoff capped at 1024 (limit not
committed) or resets it to the default (limit committed); the default is
never changed. -/
theorem loopCompute_backoff (cfg : Config) (env : Env) (cur : Inverter) (s : DplState) :
    (loopCompute cfg env cur s).1.calculationBackoffMsDefault =
      s.calculationBackoffMsDefault ∧
    ((loopCompute cfg env cur s).1.calculationBackoffMs =
        min 1024 (s.calculationBackoffMs * 2) ∨
      (loopCompute cfg env cur s).1.calculationBackoffMs =
        s.calculationBackoffMsDefault) := by
  unfold loopCompute
  dsimp only [announce]
  constructor
  · split
    · dsimp only []
      rw [(setNewPowerLimit_backoff _ _ _ _ _).2]
      dsimp only []
      exact (restartScheduler_backoff cfg env s).2
    · dsimp only []
      rw [(setNewPowerLimit_backoff _ _ _ _ _).2]
      dsimp only []
      exact (restartScheduler_backoff cfg env s).2
  · split
    · left
      dsimp only []
      rw [(setNewPowerLimit_backoff _ _ _ _ _).1]
      dsimp only []
      rw [(restartScheduler_backoff cfg env s).1]
    · right
      dsimp only []
      rw [(setNewPowerLimit_backoff _ _ _ _ _).2]
      dsimp only []
      exact (restartScheduler_backoff cfg env s).2

/-- Helper: `unconditionalSolarPassthrough` never touches the calculation backoff
or its default. -/
theorem unconditionalSolarPassthrough_backoff (cfg : Config) (env : Env)
    (inv : Inverter) (s : DplState) :
    (unconditionalSolarPassthrough cfg env inv s).1.calculationBackoffMs =
      s.calculationBackoffMs ∧
    (unconditionalSolarPassthrough cfg env inv s).1.calculationBackoffMsDefault =
      s.calculationBackoffMsDefault := by
  unfold unconditionalSolarPassthrough
  split
  · exact shutdown_backoff cfg env.now Status.noVeDirect s
  · dsimp only [announce]
    exact setNewPowerLimit_backoff cfg env.now inv _ s

/-- C4 counterexample: the backoff starts at 0 (below any positive
configured default) and the very first computing tick that does not commit
doubles it to `min 1024 (0 * 2) = 0`, still below the default: the claimed
invariant "always within [default, cap]" fails on the start-up state and
its successors until a limit is first committed. Here the default is 100,
the tick computes (case 1 yields 0 W, below the 50 W lower bound, so the
bound, non-producing inverter is "shut down" with no state change and no
commit). -/
theorem calculationBackoff_below_default :
    (loop cfg0 env0 (initialState 100)).1.calculationBackoffMs <
      (loop cfg0 env0 (initialState 100)).1.calculationBackoffMsDefault := by
  norm_num +decide [loop, loopCompute, restartScheduler, env0, cfg0, inv0, bat0, ve0,
    initialState, announce, shutdown, setNewPowerLimit, effectivePowerLimit, calcPowerLimit,
    commitPowerLimit, updateBatteryDischargeEnabled, isStopThresholdReached,
    isStartThresholdReached, isBelowStopThreshold, testThreshold, getLoadCorrectedVoltage,
    canUseDirectSolarPower, getSolarChargePower, inverterPowerDcToAc, ratTrunc, cround,
    useFullSolarPassthrough, calcNextInverterRestart]

/-- C4 amended: every loop tick changes the backoff only by keeping it,
doubling it capped at 1024 ms (limit computed but not committed), or
resetting it to the configured default (limit committed), and never
changes the default; consequently, provided the configured default lies in
[1, 1024] and the backoff already lies in [default, 1024] (which holds
from the first committed limit on, but not at start-up, where the backoff
is 0), it still lies in [default, 1024] after any tick. -/
theorem calculationBackoff_invariant (cfg : Config) (env : Env) (s : DplState) :
    ((loop cfg env s).1.calculationBackoffMsDefault = s.calculationBackoffMsDefault ∧
     ((loop cfg env s).1.calculationBackoffMs = s.calculationBackoffMs ∨
      (loop cfg env s).1.calculationBackoffMs = min 1024 (s.calculationBackoffMs * 2) ∨
      (loop cfg env s).1.calculationBackoffMs = s.calculationBackoffMsDefault)) ∧
    (1 ≤ s.calculationBackoffMsDefault → s.calculationBackoffMsDefault ≤ 1024 →
     s.calculationBackoffMsDefault ≤ s.calculationBackoffMs →
     s.calculationBackoffMs ≤ 1024 →
     s.calculationBackoffMsDefault ≤ (loop cfg env s).1.calculationBackoffMs ∧
     (loop cfg env s).1.calculationBackoffMs ≤ 1024) := by
  have hshut : ∀ (st : Status) (t : DplState),
      t.calculationBackoffMsDefault = s.calculationBackoffMsDefault →
      t.calculationBackoffMs = s.calculationBackoffMs →
      ((shutdown cfg env.now st t).1, (shutdown cfg env.now st t).2.1).1.calculationBackoffMsDefault =
          s.calculationBackoffMsDefault ∧
        (((shutdown cfg env.now st t).1, (shutdown cfg env.now st t).2.1).1.calculationBackoffMs =
            s.calculationBackoffMs ∨
          ((shutdown cfg env.now st t).1,
            (shutdown cfg env.now st t).2.1).1.calculationBackoffMs =
            min 1024 (s.calculationBackoffMs * 2) ∨
          ((shutdown cfg env.now st t).1,
            (shutdown cfg env.now st t).2.1).1.calculationBackoffMs =
            s.calculationBackoffMsDefault) := by
    intro st t hd hb
    refine ⟨(shutdown_backoff _ _ _ _).2.trans hd, Or.inl ((shutdown_backoff _ _ _ _).1.trans hb)⟩
  have key : (loop cfg env s).1.calculationBackoffMsDefault =
      s.calculationBackoffMsDefault ∧
      ((loop cfg env s).1.calculationBackoffMs = s.calculationBackoffMs ∨
       (loop cfg env s).1.calculationBackoffMs = min 1024 (s.calculationBackoffMs * 2) ∨
       (loop cfg env s).1.calculationBackoffMs = s.calculationBackoffMsDefault) := by
    unfold loop
    by_cases h1 : (!env.localTimeValid) = true
    · rw [if_pos h1]; exact ⟨rfl, Or.inl rfl⟩
    rw [if_neg h1]
    by_cases h2 : 0 < s.shutdownTimeout
    · rw [if_pos h2]; exact hshut _ s rfl rfl
    rw [if_neg h2]
    by_cases h3 : (!cfg.powerLimiterEnabled) = true
    · rw [if_pos h3]; exact hshut _ s rfl rfl
    rw [if_neg h3]
    by_cases h4 : s.mode = Mode.disabled
    · rw [if_pos h4]; exact hshut _ s rfl rfl
    rw [if_neg h4]
    rcases hc : env.currentInverter with _ | cur
    · dsimp only []
      exact hshut _ s rfl rfl
    dsimp only []
    by_cases h5 : (match s.inverter with
        | some inv => decide (inv.serial ≠ cur.serial)
        | none => false) = true
    · rw [if_pos h5]; exact hshut _ s rfl rfl
    rw [if_neg h5]
    by_cases h6 : (!cur.isReachable) = true
    · rw [if_pos h6]; exact ⟨rfl, Or.inl rfl⟩
    rw [if_neg h6]
    by_cases h7 : (!cur.enableCommands) = true
    · rw [if_pos h7]; exact ⟨rfl, Or.inl rfl⟩
    rw [if_neg h7]
    by_cases h8 : cur.lastLimitCommandState = CmdState.pending
    · rw [if_pos h8]; exact ⟨rfl, Or.inl rfl⟩
    rw [if_neg h8]
    by_cases h9 : cur.lastPowerCommandState = CmdState.pending
    · rw [if_pos h9]; exact ⟨rfl, Or.inl rfl⟩
    rw [if_neg h9]
    by_cases h10 : cur.maxPower ≤ 0
    · rw [if_pos h10]; exact ⟨rfl, Or.inl rfl⟩
    rw [if_neg h10]
    by_cases h11 : ({ s with inverter := some cur } : DplState).mode =
        Mode.unconditionalFullSolarPassthrough
    · rw [if_pos h11]
      exact ⟨(unconditionalSolarPassthrough_backoff _ _ _ _).2,
        Or.inl (unconditionalSolarPassthrough_backoff _ _ _ _).1⟩
    rw [if_neg h11]
    by_cases h12 : (!cfg.powerMeterEnabled) = true
    · rw [if_pos h12]; exact hshut _ _ rfl rfl
    rw [if_neg h12]
    by_cases h13 : 30000 < env.now - env.powerMeterLastUpdate
    · rw [if_pos h13]; exact hshut _ _ rfl rfl
    rw [if_neg h13]
    by_cases h14 : env.now < max cur.sysConfigLastUpdateCommand cur.powerLastUpdateCommand + 3000
    · rw [if_pos h14]; exact ⟨rfl, Or.inl rfl⟩
    rw [if_neg h14]
    by_cases h15 : cur.statsLastUpdate ≤ max cur.sysConfigLastUpdateCommand cur.powerLastUpdateCommand + 3000
    · rw [if_pos h15]; exact ⟨rfl, Or.inl rfl⟩
    rw [if_neg h15]
    by_cases h16 : env.powerMeterLastUpdate ≤ max cur.sysConfigLastUpdateCommand cur.powerLastUpdateCommand + 3000
    · rw [if_pos h16]; exact ⟨rfl, Or.inl rfl⟩
    rw [if_neg h16]
    by_cases h17 : env.now < ({ s with inverter := some cur } : DplState).lastCalculation +
        ({ s with inverter := some cur } : DplState).calculationBackoffMs
    · rw [if_pos h17]; exact ⟨rfl, Or.inl rfl⟩
    rw [if_neg h17]
    exact ⟨(loopCompute_backoff _ _ _ _).1,
      Or.elim (loopCompute_backoff _ _ _ _).2
        (fun h => Or.inr (Or.inl h)) (fun h => Or.inr (Or.inr h))⟩
  refine ⟨key, fun h1 h2 h3 h4 => ?_⟩
  rcases key with ⟨hd, h | h | h⟩ <;> rw [h] <;> constructor <;> omega

/-- Witness for `calculationBackoff_invariant`: starting from backoff =
default = 100 the non-committing tick keeps the backoff within [100, 1024]. -/
theorem calculationBackoff_invariant_witness :
    ({ initialState 100 with calculationBackoffMs := 100 } : DplState).calculationBackoffMsDefault ≤
      (loop cfg0 env0
        { initialState 100 with calculationBackoffMs := 100 }).1.calculationBackoffMs ∧
    (loop cfg0 env0
      { initialState 100 with calculationBackoffMs := 100 }).1.calculationBackoffMs ≤ 1024 :=
  (calculationBackoff_invariant cfg0 env0
    { initialState 100 with calculationBackoffMs := 100 }).2
    (by decide) (by decide) (by decide) (by decide)

/-! ## C10: unconditional full solar passthrough mode -/

/-- State for the C10 evaluations: fresh start-up state switched to
UnconditionalFullSolarPassthrough mode. -/
def sUfsp : DplState := { initialState 32 with mode := Mode.unconditionalFullSolarPassthrough }

/-- C10 counterexample: a tick that reaches priority step 11 in
UnconditionalFullSolarPassthrough mode with the VE.Direct interface
disabled does NOT commit a solar-based limit and does NOT announce the
UnconditionalSolarPassthrough status: it requests a shutdown and announces
NoVeDirect, sending no command (the bound inverter is not producing). -/
theorem loop_ufsp_no_vedirect :
    (loop cfg0 env0 sUfsp).1.lastStatus = Status.noVeDirect ∧
    (loop cfg0 env0 sUfsp).1.lastStatus ≠ Status.unconditionalSolarPassthrough ∧
    (loop cfg0 env0 sUfsp).2 = [] := by
  norm_num +decide [loop, loopCompute, restartScheduler, unconditionalSolarPassthrough,
    env0, cfg0, inv0, bat0, ve0, initialState, sUfsp, announce, shutdown, setNewPowerLimit,
    effectivePowerLimit, calcPowerLimit, commitPowerLimit, updateBatteryDischargeEnabled,
    isStopThresholdReached, isStartThresholdReached, isBelowStopThreshold, testThreshold,
    getLoadCorrectedVoltage, canUseDirectSolarPower, getSolarChargePower,
    inverterPowerDcToAc, ratTrunc, cround, useFullSolarPassthrough, calcNextInverterRestart]

/-- C10 amended: on every loop tick that reaches priority step 11 with
Mode=UnconditionalFullSolarPassthrough, provided VE.Direct is enabled and
its data valid, the loop commits the AC equivalent of solar voltage times
current via the limit committer and announces UnconditionalSolarPassthrough;
otherwise it requests shutdown and announces NoVeDirect. In both branches
the power meter is never consulted: the tick's outcome is independent of
the meter reading and its timestamp. -/
theorem loop_ufsp_spec (cfg : Config) (env : Env) (s : DplState) (cur : Inverter)
    (ht : env.localTimeValid = true)
    (hsd : s.shutdownTimeout = 0)
    (hen : cfg.powerLimiterEnabled = true)
    (hmode : s.mode = Mode.unconditionalFullSolarPassthrough)
    (hcur : env.currentInverter = some cur)
    (hser : ∀ i ∈ s.inverter, i.serial = cur.serial)
    (hre : cur.isReachable = true)
    (hcmd : cur.enableCommands = true)
    (hlim : cur.lastLimitCommandState ≠ CmdState.pending)
    (hpow : cur.lastPowerCommandState ≠ CmdState.pending)
    (hmax : 0 < cur.maxPower) :
    (cfg.vedirectEnabled = true → env.solar.isDataValid = true →
      loop cfg env s =
        (announce (setNewPowerLimit cfg env.now cur
            (inverterPowerDcToAc cfg cur (ratTrunc (env.solar.V * env.solar.I)))
            { s with inverter := some cur }).1 Status.unconditionalSolarPassthrough,
          (setNewPowerLimit cfg env.now cur
            (inverterPowerDcToAc cfg cur (ratTrunc (env.solar.V * env.solar.I)))
            { s with inverter := some cur }).2.1)) ∧
    (¬(cfg.vedirectEnabled = true ∧ env.solar.isDataValid = true) →
      loop cfg env s =
        ((shutdown cfg env.now Status.noVeDirect { s with inverter := some cur }).1,
          (shutdown cfg env.now Status.noVeDirect { s with inverter := some cur }).2.1)) ∧
    (∀ (q : ℚ) (t : ℕ),
      loop cfg { env with powerMeterTotal := q, powerMeterLastUpdate := t } s =
        loop cfg env s) := by
  have hserial : (match s.inverter with
      | some inv => decide (inv.serial ≠ cur.serial)
      | none => false) = false := by
    cases hs : s.inverter with
    | none => rfl
    | some i => simp [hser i (Option.mem_def.mpr hs)]
  have main : ∀ e : Env, e.localTimeValid = true → e.currentInverter = some cur →
      loop cfg e s = unconditionalSolarPassthrough cfg e cur { s with inverter := some cur } := by
    intro e he hc
    unfold loop
    rw [if_neg (by simp [he])]
    rw [if_neg (by omega : ¬ 0 < s.shutdownTimeout)]
    rw [if_neg (by simp [hen])]
    rw [if_neg (by simp [hmode])]
    rw [hc]
    dsimp only []
    rw [if_neg (by rw [hserial]; simp)]
    rw [if_neg (by simp [hre])]
    rw [if_neg (by simp [hcmd])]
    rw [if_neg hlim]
    rw [if_neg hpow]
    rw [if_neg (not_le.mpr hmax)]
    rw [if_pos hmode]
  refine ⟨fun hv hd => ?_, fun hno => ?_, fun q t => ?_⟩
  · rw [main env ht hcur]
    unfold unconditionalSolarPassthrough
    rw [if_neg (by simp [hv, hd])]
  · rw [main env ht hcur]
    unfold unconditionalSolarPassthrough
    rw [if_pos (by
      cases hcv : cfg.vedirectEnabled <;> cases hdv : env.solar.isDataValid <;>
        simp_all)]
  · rw [main { env with powerMeterTotal := q, powerMeterLastUpdate := t } ht hcur,
      main env ht hcur]
    rfl

/-- Witness for `loop_ufsp_spec`: in passthrough mode the tick ignores the
power meter fields entirely. -/
theorem loop_ufsp_spec_witness :
    loop cfg0 { env0 with powerMeterTotal := 999, powerMeterLastUpdate := 3 } sUfsp =
      loop cfg0 env0 sUfsp := by
  refine (loop_ufsp_spec cfg0 env0 sUfsp inv0 rfl rfl rfl rfl rfl ?_ rfl rfl
    (by decide) (by decide) (by decide)).2.2 999 3
  intro i hi
  simp [sUfsp, initialState] at hi

end DPL
